import Mathlib

/-!
Verification development for qiskit_bot/release_process.py.

The source is Python 3, so the embedding models the relevant Python value
and exception semantics explicitly: version strings are split into lists of
strings, mixed-type operations behave exactly as in CPython (for example,
comparing a `str` with an `int` using `==` yields `False`, while `str + int`
or `str > int` raise `TypeError`), files opened in mode "w" are truncated at
open time and are not readable, and calling a missing attribute (such as
`append` on a `str`) raises `AttributeError`.  Fallible steps return
`Except PyError`.  External collaborators (git wrapper, GitHub API, the reno
tool, the filesystem) are modelled as inputs, and the side effects the code
requests from them are recorded as an event trace.
-/

/-- Python exception classes that the embedded code can raise. -/
inductive PyError
  | typeError
  | indexError
  | valueError
  | attributeError
  | keyError
  | unsupportedOperation
  | fileNotFoundError
deriving DecidableEq, Repr

/-- Python values flowing through the version arithmetic: strings, integers
and lists.  Only the operations the source exercises are modelled. -/
inductive PyVal
  | str (s : String)
  | int (n : Int)
  | list (xs : List PyVal)

mutual

/-- Python `==`.  Values of different types (for example a `str` and an
`int`) compare unequal without raising; same-type values compare
structurally. -/
def py_eq : PyVal → PyVal → Bool
  | PyVal.str a, PyVal.str b => a == b
  | PyVal.int a, PyVal.int b => a == b
  | PyVal.list a, PyVal.list b => py_eq_list a b
  | _, _ => false

/-- Elementwise Python `==` on lists. -/
def py_eq_list : List PyVal → List PyVal → Bool
  | [], [] => true
  | x :: xs, y :: ys => py_eq x y && py_eq_list xs ys
  | _, _ => false

end

/-- Python `+`: concatenation for `str` and `list`, addition for `int`;
any mixed combination (for example `str + int` or `str + list`) raises
`TypeError`. -/
def py_add : PyVal → PyVal → Except PyError PyVal
  | PyVal.str a, PyVal.str b => Except.ok (PyVal.str (a ++ b))
  | PyVal.int a, PyVal.int b => Except.ok (PyVal.int (a + b))
  | PyVal.list a, PyVal.list b => Except.ok (PyVal.list (a ++ b))
  | _, _ => Except.error PyError.typeError

/-- Python `-`: defined for `int` only; any other combination raises
`TypeError`. -/
def py_sub : PyVal → PyVal → Except PyError PyVal
  | PyVal.int a, PyVal.int b => Except.ok (PyVal.int (a - b))
  | _, _ => Except.error PyError.typeError

/-- Python `>`: ordered comparison is defined within `int` and within `str`;
comparing a `str` with an `int` raises `TypeError` (Python 3 semantics). -/
def py_gt : PyVal → PyVal → Except PyError Bool
  | PyVal.int a, PyVal.int b => Except.ok (decide (b < a))
  | PyVal.str a, PyVal.str b => Except.ok (decide (b < a))
  | _, _ => Except.error PyError.typeError

/-- Python list subscription `xs[i]` for a non-negative index: raises
`IndexError` when the index is out of range. -/
def py_index (xs : List PyVal) (i : Nat) : Except PyError PyVal :=
  match xs.get? i with
  | some v => Except.ok v
  | none => Except.error PyError.indexError

/-- Python `str(...)` / `%s` formatting of a value.  The embedded code only
ever formats strings and integers; the list case is unreachable in it. -/
def py_str : PyVal → String
  | PyVal.str s => s
  | PyVal.int n => toString n
  | PyVal.list _ => "[]"

/-- Splitting a list of characters at every occurrence of a separator
character, keeping empty groups, as Python `str.split(sep)` does for a
one-character separator. -/
def split_chars (sep : Char) : List Char → List (List Char)
  | [] => [[]]
  | c :: cs =>
    let r := split_chars sep cs
    if c == sep then [] :: r
    else
      match r with
      | [] => [[c]]
      | g :: gs => (c :: g) :: gs

/-- Python `s.split(sep)` for a one-character separator, as plain strings. -/
def py_split_s (sep : Char) (s : String) : List String :=
  (split_chars sep s.data).map String.mk

/-- Python `s.split(sep)`, producing Python string values. -/
def py_split (sep : Char) (s : String) : List PyVal :=
  (py_split_s sep s).map PyVal.str

/-- Python `sep.join(x)`: joins an iterable of strings; a list holding a
non-string element, or a non-iterable such as an `int`, raises `TypeError`.
Joining a `str` joins its characters. -/
def py_join (sep : String) : PyVal → Except PyError String
  | PyVal.list xs => do
    let strs ← xs.mapM (fun v =>
      match v with
      | PyVal.str s => Except.ok s
      | _ => Except.error PyError.typeError)
    pure (String.intercalate sep strs)
  | PyVal.str s => Except.ok (String.intercalate sep (s.data.map (fun c => String.mk [c])))
  | PyVal.int _ => Except.error PyError.typeError

/-- Containment of one character list inside another as a contiguous run. -/
def chars_in (needle : List Char) : List Char → Bool
  | [] => needle.isEmpty
  | c :: cs => needle.isPrefixOf (c :: cs) || chars_in needle cs

/-- Python `needle in hay` on strings: substring containment. -/
def str_in (needle hay : String) : Bool :=
  chars_in needle.data hay.data

/-- Python `os.path.join(a, b)` for a relative second component. -/
def path_join (a b : String) : String := a ++ "/" ++ b

/-- Helper: decimal digits to a natural number; `none` when the list is
empty or holds a non-digit. -/
def digits_to_nat : List Char → Option Nat
  | [] => none
  | cs =>
    cs.foldl
      (fun acc c => acc.bind (fun n =>
        if c.isDigit then some (n * 10 + (c.toNat - 48)) else none))
      (some 0)

/-- Python `int(s)` on a string: strips surrounding whitespace, accepts an
optional sign followed by decimal digits, and raises `ValueError`
otherwise. -/
def py_int (s : String) : Except PyError Int :=
  let cs := ((s.data.dropWhile Char.isWhitespace).reverse.dropWhile
    Char.isWhitespace).reverse
  match cs with
  | '-' :: rest =>
    match digits_to_nat rest with
    | some n => Except.ok (-(n : Int))
    | none => Except.error PyError.valueError
  | '+' :: rest =>
    match digits_to_nat rest with
    | some n => Except.ok ((n : Int))
    | none => Except.error PyError.valueError
  | rest =>
    match digits_to_nat rest with
    | some n => Except.ok ((n : Int))
    | none => Except.error PyError.valueError

/-- Python subscription `m[1]` on the result of `re.match`: when the match
failed the result is `None`, and subscripting `None` raises `TypeError`. -/
def py_subscript_match (m : Option String) : Except PyError String :=
  match m with
  | some g => Except.ok g
  | none => Except.error PyError.typeError

/-- Python `"# ...".append`: `str` objects have no `append` attribute, so
the attribute access raises `AttributeError`. -/
def py_str_append (_s _arg : String) : Except PyError String :=
  Except.error PyError.attributeError

/-- Index of the last occurrence of a character in a list, if any. -/
def last_index_of (c : Char) (cs : List Char) : Option Nat :=
  cs.enum.foldl (fun acc p => if p.2 == c then some p.1 else acc) none

/-- Model of `re.match` for the pattern matching a change-request token at
the end of a summary line: an unanchored-tail, greedy "dot star, literal
open paren, group of dot star, literal close paren" pattern applied from the
start of a single-line string.  Under greedy backtracking the group is the
text strictly between the last close paren of the line and the last open
paren occurring before it; the match fails when no such pair exists. -/
def pr_regex_match (s : String) : Option String :=
  let cs := s.data
  match last_index_of ')' cs with
  | none => none
  | some j =>
    match last_index_of '(' (cs.take j) with
    | none => none
    | some i => some (String.mk ((cs.take j).drop (i + 1)))

/-- Model of `re.match` for the pattern "package_name==(.*)\n" used on a
manifest line: the line must start with the pinned-package token, the group
greedily takes the following characters up to a newline, and a newline must
be present for the match to succeed. -/
def re_match_pkg (package_name line : String) : Option String :=
  let pre := (package_name ++ "==").data
  let cs := line.data
  if pre.isPrefixOf cs then
    let rest := cs.drop pre.length
    let g := rest.takeWhile (fun c => c != '\n')
    if g.length < rest.length then some (String.mk g) else none
  else none

/-- Model of `re.match` for the pattern "version=(.*)" used on a manifest
line: the line must start with the version-assignment token and the group
takes the rest of the line up to a newline or the end. -/
def re_match_version (line : String) : Option String :=
  let pre := ("version=").data
  let cs := line.data
  if pre.isPrefixOf cs then
    some (String.mk ((cs.drop pre.length).takeWhile (fun c => c != '\n')))
  else none

/-- Side effects the embedded code asks its collaborators to perform, in
order: lock acquisition and release (fasteners.InterProcessLock used as a
context manager), reno invocation, git branch creation, checkout, file
writes, commits, pull-request creation, release creation, and the final
checkout of the default branch. -/
inductive Event
  | acquire (path : String)
  | release (path : String)
  | reno_report (version : String)
  | create_branch (name start_point : String) (push : Bool)
  | checkout_ref (r : String)
  | set_file (path : String) (lines : List String)
  | commit_all (message : String)
  | create_pull (title base head body : String)
  | create_release (tag name : String) (body : Option String)
  | checkout_master (pull : Bool)
deriving DecidableEq, Repr

/-- Computation monad for the embedded code: an exception layer for Python
errors over a state holding the trace of requested side effects.  The state
survives an exception, exactly as already-performed external effects do. -/
abbrev PyM (α : Type) : Type := ExceptT PyError (StateM (List Event)) α

/-- Record one requested side effect. -/
def emit (e : Event) : PyM Unit :=
  modify (fun evs => evs ++ [e])

/-- Lift a pure fallible Python computation into the traced monad. -/
def liftE {α : Type} (x : Except PyError α) : PyM α :=
  match x with
  | Except.ok a => pure a
  | Except.error e => throw e

/-- Run an embedded computation from an empty trace, returning the effects
requested before completion or failure, and the uncaught exception if
any. -/
def runPy {α : Type} (m : PyM α) : List Event × Option PyError :=
  let p := (m.run).run []
  (p.2,
    match p.1 with
    | Except.ok _ => none
    | Except.error e => some e)

/-- Python `with` statement on a `fasteners.InterProcessLock`: the lock is
acquired on entry and released on every exit path; an exception raised by
the body still releases the lock and then propagates. -/
def with_lock {α : Type} (path : String) (body : PyM α) : PyM α := do
  emit (Event.acquire path)
  tryCatch
    (do
      let a ← body
      emit (Event.release path)
      pure a)
    (fun e => do
      emit (Event.release path)
      throw e)

/-- Possible outcomes of `subprocess.run(['reno', 'report', ...],
check=True)`: a zero exit with captured stdout, a non-zero exit (which
`check=True` turns into `subprocess.CalledProcessError`), or a failure to
invoke the tool at all (an `OSError` such as `FileNotFoundError` when the
executable is missing). -/
inductive RenoResult
  | success (stdout : String)
  | called_process_error (returncode : Int)
  | os_error
deriving DecidableEq, Repr

/-- Embeds `_run_reno` (release_process.py lines 29-36).  The `try` block
catches only `subprocess.CalledProcessError`, logging it and returning
`None`; an `OSError` from invoking the tool is not caught and
propagates. -/
def run_reno (res : RenoResult) : Except PyError (Option String) :=
  match res with
  | RenoResult.success out => Except.ok (some out)
  | RenoResult.called_process_error _ => Except.ok none
  | RenoResult.os_error => Except.error PyError.fileNotFoundError

/-- File handle model: `open(path, "w")` truncates the file at open time and
yields a handle that is writable but not readable. -/
structure PyFile where
  lines : List String
  readable : Bool
  writable : Bool

/-- Python `open(path, "w")`: the previous on-disk content is discarded
immediately and the handle is not readable. -/
def py_open_w (_disk : List String) : PyFile :=
  { lines := [], readable := false, writable := true }

/-- Python iteration `for line in fd`: reading from a handle opened in mode
"w" raises `io.UnsupportedOperation` (not readable). -/
def py_iter_lines (f : PyFile) : Except PyError (List String) :=
  if f.readable then Except.ok f.lines else Except.error PyError.unsupportedOperation

/-- An open pull request on the meta repository, as returned by
`get_pulls(state="open")`: its title and its head branch. -/
structure Pull where
  title : String
  head : String
deriving DecidableEq, Repr

/-- Embeds the next-meta-version computation of `bump_meta`
(release_process.py lines 41-50).  `version_number_pieces` and
`meta_version_pieces` are lists of strings produced by `split(".")`; the
test `version_number_pieces[2] == 0` compares a string with the integer 0;
each arithmetic branch formats `"%s.%s.%s"` after adding the integer 1 to a
string piece. -/
def bump_meta_new_version (version_number meta_version : String) :
    Except PyError String := do
  let vp := py_split '.' version_number
  let mp := py_split '.' meta_version
  let v2 ← py_index vp 2
  if py_eq v2 (PyVal.int 0) then do
    let a ← py_index mp 0
    let b ← py_index mp 1
    let b1 ← py_add b (PyVal.int 1)
    pure (py_str a ++ "." ++ py_str b1 ++ "." ++ py_str (PyVal.int 0))
  else do
    let a ← py_index mp 0
    let b ← py_index mp 1
    let c ← py_index mp 2
    let c1 ← py_add c (PyVal.int 1)
    pure (py_str a ++ "." ++ py_str b ++ "." ++ py_str c1)

/-- Embeds the body of the manifest-edit loop of `bump_meta`
(release_process.py lines 67-76) for one line: a line containing the package
name has the old pin extracted by `re.match(package_name + "==(.*)\n",
line)[1]` and `line.replace(...)` is called with its result discarded; a
line containing "version=" has the old value extracted by
`re.match("version=(.*)", line)[1]` and, when it differs from the new meta
version, `line.replace(...)` is called with its result likewise
discarded. -/
def bump_meta_edit_line (package_name requirements_str new_meta_version
    line : String) : Except PyError Unit := do
  if str_in package_name line then do
    let old_version ← py_subscript_match (re_match_pkg package_name line)
    let _ := line.replace (package_name ++ "==" ++ old_version) requirements_str
    pure ()
  else if str_in "version=" line then do
    let old_version ← py_subscript_match (re_match_version line)
    if old_version != new_meta_version then do
      let _ := line.replace ("version=" ++ old_version)
        ("version=" ++ new_meta_version)
      pure ()
    else
      pure ()
  else
    pure ()

/-- Embeds the manifest edit of `bump_meta` (release_process.py lines
66-76): `open(setup_py_path, "w")` truncates setup.py on open, then the code
iterates over the write-only handle line by line.  The result is the final
on-disk content of the file together with the outcome of the block. -/
def bump_meta_edit (setup_py_disk : List String)
    (package_name requirements_str new_meta_version : String) :
    List String × Except PyError Unit :=
  let fd := py_open_w setup_py_disk
  let r : Except PyError Unit := do
    let file_lines ← py_iter_lines fd
    file_lines.forM
      (bump_meta_edit_line package_name requirements_str new_meta_version)
  (fd.lines, r)

/-- Embeds `bump_meta` (release_process.py lines 39-87).  Inputs stand for
the external reads the function performs: `meta_version` is
`git.get_latest_tag(repo)`, `repo_full_name` is `repo.repo_name`,
`repo_local_path` is `repo.local_path`, `open_pulls` is
`meta_repo.gh_repo.get_pulls(state="open")` and `setup_py_disk` is the
on-disk content of setup.py.  Requested side effects are traced: the
`for/else` over the open pulls creates the branch "bump_meta" only when no
pull is titled "Bump Meta"; both paths then check out "bump_meta", edit
setup.py, commit, and only the no-pull path opens a new pull request. -/
def bump_meta (version_number meta_version repo_full_name repo_local_path :
    String) (open_pulls : List Pull) (setup_py_disk : List String) :
    PyM Unit := do
  let new_meta_version ← liftE (bump_meta_new_version version_number meta_version)
  let package_name := py_str (← liftE (py_index (py_split '/' repo_full_name) 1))
  let setup_py_path := path_join repo_local_path "setup.py"
  let title := "Bump Meta"
  let requirements_str := package_name ++ "==" ++ version_number
  let bump_pr := open_pulls.find? (fun p => p.title == title)
  match bump_pr with
  | some _ => pure ()
  | none => emit (Event.create_branch "bump_meta" "origin/master" false)
  emit (Event.checkout_ref "bump_meta")
  let edited := bump_meta_edit setup_py_disk package_name requirements_str
    new_meta_version
  emit (Event.set_file setup_py_path edited.1)
  let _ ← liftE edited.2
  let body := "\nBump the meta repo version to include:\n\n" ++
    requirements_str ++ "\n\n"
  emit (Event.commit_all ("Bump version for " ++ requirements_str))
  if bump_pr.isNone then
    emit (Event.create_pull title "master" "bump_meta" body)

/-- Append a summary under a key of the changelog dictionary (the Python
`changelog_dict[label].append(summary)`); keys are distinct since the
dictionary was built from a `dict`. -/
def assoc_append (d : List (String × List String)) (key v : String) :
    List (String × List String) :=
  d.map (fun kv => if kv.1 == key then (kv.1, kv.2 ++ [v]) else kv)

/-- Python `d[key]` on a dictionary modelled as an association list with
distinct keys: a missing key raises `KeyError`. -/
def py_dict_get (d : List (String × String)) (key : String) :
    Except PyError String :=
  match d.find? (fun kv => kv.1 == key) with
  | some kv => Except.ok kv.2
  | none => Except.error PyError.keyError

/-- Embeds `_generate_changelog` (release_process.py lines 90-118).
`git_log` is the list of lines returned by `git.get_git_log` for the log
range, `labels_of` gives the label names of `repo.gh_repo.get_pull(n)` and
`categories` is the configured label-to-heading dictionary.  An empty log
returns `None`.  Each line is split on spaces, the summary joins the pieces
after the third piece when the line contains "tag:" and after the first
piece otherwise, and the change-request token is `pr_regex.match(summary)
[1][1:]` (subscripting a failed match raises `TypeError`).  Labels select
dictionary buckets; rendering then starts from the string "# Changelog\n"
and calls `.append` on it, which raises `AttributeError` on the first
iteration whenever the dictionary has a key; with no categories the loop
body never runs and the bare heading is returned. -/
def generate_changelog (git_log : List String) (labels_of : Int → List String)
    (categories : List (String × String)) : Except PyError (Option String) := do
  if git_log.isEmpty then
    return none
  let git_summaries ← git_log.mapM (fun line => do
    let pieces := py_split_s ' ' line
    let summary :=
      if str_in "tag:" line then
        String.intercalate " " (pieces.drop 3)
      else
        String.intercalate " " (pieces.drop 1)
    let g ← py_subscript_match (pr_regex_match summary)
    pure (summary, g.drop 1))
  let changelog_dict := categories.map (fun kv => (kv.1, ([] : List String)))
  let changelog_dict ← git_summaries.foldlM (fun d sp => do
    let n ← py_int sp.2
    let labels := labels_of n
    pure (labels.foldl
      (fun d2 label =>
        if d2.any (fun kv => kv.1 == label) then assoc_append d2 label sp.1
        else d2)
      d)) changelog_dict
  let changelog ← changelog_dict.foldlM (fun c kv => do
    let heading ← py_dict_get categories kv.1
    let c2 ← py_str_append c ("## " ++ heading ++ "\n")
    let _wrapped := kv.2.map (fun p => "-   " ++ p)
    let c3 ← py_str_append c2 "\n"
    pure c3) "# Changelog\n"
  return some changelog

/-- Embeds `create_github_release` (release_process.py lines 121-124).  The
changelog, absent or not, is passed as the body of the hosted release named
"repo.name version_number"; `log_string` is the range handed to the external
log retrieval, whose result is the `git_log` input. -/
def create_github_release (git_log : List String)
    (labels_of : Int → List String) (categories : List (String × String))
    (repo_name version_number log_string : String) : PyM Unit := do
  let _ := log_string
  let changelog ← liftE (generate_changelog git_log labels_of categories)
  let release_name := repo_name ++ " " ++ version_number
  emit (Event.create_release version_number release_name changelog)

/-- Embeds the log-range computation of `finish_release`
(release_process.py lines 147-160).  The guard compares the string patch
piece with the integer 0 using `>`; the patch branch would join the first
two pieces with the string patch piece minus 1, and the minor branch would
add the string major piece to a two-element list. -/
def finish_release_log_string (version_number : String) :
    Except PyError String := do
  let vp := py_split '.' version_number
  let v2 ← py_index vp 2
  let gt ← py_gt v2 (PyVal.int 0)
  if gt then do
    let c ← py_index vp 2
    let d ← py_sub c (PyVal.int 1)
    let tail ← py_join "." (PyVal.list (vp.take 2 ++ [d]))
    pure (version_number ++ "..." ++ tail)
  else do
    let p0 ← py_index vp 0
    let p1 ← py_index vp 1
    let d ← py_sub p1 (PyVal.int 1)
    let s ← py_add p0 (PyVal.list [d, PyVal.int 0])
    let tail ← py_join "." s
    pure (version_number ++ "..." ++ tail)

/-- Inputs of one `finish_release` run: the release version, the repository
and meta-repository identities, the per-repository configuration, and the
values every external read performs during the run. -/
structure FinishReleaseWorld where
  version_number : String
  repo_name : String
  repo_full_name : String
  repo_local_path : String
  meta_name : String
  working_dir : String
  reno_flag : Bool
  branch_on_release : Bool
  repo_branches : List String
  reno_result : RenoResult
  git_log : List String
  labels_of : Int → List String
  categories : List (String × String)
  meta_version : String
  open_pulls : List Pull
  setup_py_disk : List String

/-- Embeds `finish_release` (release_process.py lines 127-167).  The first
`with` block acquires the inter-process lock named after the released
repository and runs reno (when configured), the stable-branch cut (when
configured, guarded by the string-vs-int patch test and branch absence), the
log-range computation and the release publication; the second `with` block
acquires the lock named after the meta repository and runs `bump_meta`
followed by the checkout of the default branch.  Each `with` releases its
lock on success and on exception before the exception propagates. -/
def finish_release (w : FinishReleaseWorld) : PyM Unit := do
  let lock_dir := path_join w.working_dir "lock"
  let vp := py_split '.' w.version_number
  let branch_number ← liftE (py_join "." (PyVal.list (vp.take 2)))
  with_lock (path_join lock_dir w.repo_name) (do
    if w.reno_flag then do
      emit (Event.reno_report w.version_number)
      let _ ← liftE (run_reno w.reno_result)
      pure ()
    if w.branch_on_release then do
      let branch_name := "stable/" ++ branch_number
      let v2 ← liftE (py_index vp 2)
      if py_eq v2 (PyVal.int 0) && !(w.repo_branches.contains branch_name) then
        emit (Event.create_branch branch_name w.version_number true)
    let log_string ← liftE (finish_release_log_string w.version_number)
    create_github_release w.git_log w.labels_of w.categories w.repo_name
      w.version_number log_string)
  with_lock (path_join lock_dir w.meta_name) (do
    bump_meta w.version_number w.meta_version w.repo_full_name
      w.repo_local_path w.open_pulls w.setup_py_disk
    emit (Event.checkout_master true))

/-- Concrete run of `finish_release`: a minor release 1.2.0 of
Qiskit/qiskit-terra with stable-branch cutting enabled, no stable branch
present yet, reno disabled, and no open proposal on the meta repository. -/
def minor_world : FinishReleaseWorld := {
  version_number := "1.2.0"
  repo_name := "qiskit-terra"
  repo_full_name := "Qiskit/qiskit-terra"
  repo_local_path := "/tmp/qiskit-terra"
  meta_name := "qiskit"
  working_dir := "/wd"
  reno_flag := false
  branch_on_release := true
  repo_branches := []
  reno_result := RenoResult.success "notes"
  git_log := ["abc1234 Fix the bug (#123)"]
  labels_of := fun n => if n == 123 then ["bug"] else []
  categories := [("bug", "Bug Fixes")]
  meta_version := "0.5.0"
  open_pulls := []
  setup_py_disk := ["qiskit-terra==0.20.0\n", "version=0.5.0\n"] }

/-- Concrete run of `finish_release`: a patch release 1.2.1 of
Qiskit/qiskit-terra with reno enabled and succeeding, stable-branch cutting
disabled, and the meta repository named qiskit-metapackage. -/
def patch_world : FinishReleaseWorld := {
  version_number := "1.2.1"
  repo_name := "qiskit-terra"
  repo_full_name := "Qiskit/qiskit-terra"
  repo_local_path := "/tmp/qiskit-terra"
  meta_name := "qiskit-metapackage"
  working_dir := "/wd"
  reno_flag := true
  branch_on_release := false
  repo_branches := ["stable/1.1"]
  reno_result := RenoResult.success "notes"
  git_log := ["abc1234 Fix the bug (#123)"]
  labels_of := fun n => if n == 123 then ["bug"] else []
  categories := [("bug", "Bug Fixes")]
  meta_version := "0.6.0"
  open_pulls := []
  setup_py_disk := ["qiskit-terra==0.20.0\n", "version=0.6.0\n"] }

/-- C1: the claim states that for meta version (a, b, c) the next meta
version is (a, b+1, 0) when the released patch component is 0 and
(a, b, c+1) otherwise.  The code instead compares the string patch piece
with the integer 0, which is always false in Python, so the minor branch is
dead; the patch branch then adds the integer 1 to the string meta patch
piece and raises TypeError.  At released version 1.2.0 and meta version
0.5.0 the claim expects 0.6.0, but the computation raises. -/
theorem c1_next_meta_version_crashes :
    py_eq (PyVal.str "0") (PyVal.int 0) = false ∧
    bump_meta_new_version "1.2.0" "0.5.0" = Except.error PyError.typeError ∧
    bump_meta_new_version "1.2.1" "0.5.0" = Except.error PyError.typeError := by
  refine ⟨rfl, rfl, rfl⟩

/-- C2: the claim states that the log range for M.N.P is
("M.N.P", "M.N.(P-1)") for P greater than 0 and ("M.N.0", "M.(N-1).0") for
P equal to 0.  The code guards the two branches with a greater-than
comparison between the string patch piece and the integer 0, which raises
TypeError in Python 3, so no log range is ever produced, for patch and
minor versions alike. -/
theorem c2_log_range_crashes :
    py_gt (PyVal.str "1") (PyVal.int 0) = Except.error PyError.typeError ∧
    finish_release_log_string "1.2.1" = Except.error PyError.typeError ∧
    finish_release_log_string "1.2.0" = Except.error PyError.typeError := by
  refine ⟨rfl, rfl, rfl⟩

/-- C3: the claim states that with no open proposal titled "Bump Meta" a new
working branch and a new proposal are created, and with one they are not.
On a run with no open proposals, released version 1.2.0 and meta tag 0.5.0,
`bump_meta` raises TypeError while computing the next meta version, before
the proposal search, so its trace is empty: no branch is created, no commit
is made and no proposal is opened on either path. -/
theorem c3_bump_meta_no_proposal_crashes :
    runPy (bump_meta "1.2.0" "0.5.0" "Qiskit/qiskit-terra" "/tmp/qiskit-terra"
        [] ["qiskit-terra==0.20.0\n", "version=0.5.0\n"])
      = ([], some PyError.typeError) := rfl

/-- C4: the claim states that the manifest edit rewrites the pin line and
the version line only when their values differ from the computed ones, so a
bump against an already-correct manifest performs no textual change.  The
code opens setup.py in mode "w", which truncates it on open, and then
iterates over the write-only handle, which raises io.UnsupportedOperation:
on an already-correct manifest the file is left empty and the edit raises
(the `line.replace` calls would in any case discard their results). -/
theorem c4_manifest_edit_truncates :
    bump_meta_edit ["qiskit-terra==1.2.0\n", "version=0.6.1\n"]
        "qiskit-terra" "qiskit-terra==1.2.0" "0.6.1"
      = ([], Except.error PyError.unsupportedOperation) := rfl

/-- C5: the claim states that stable/1.2 is created and pushed exactly when
branch_on_release is set, the patch component is 0 and the branch is absent.
On such a run (version 1.2.0, branch cutting enabled, no branches) the
string-vs-int equality test in the guard is always false, so no
create-branch request appears in the trace; the run then raises TypeError at
the log-range computation and the lock is released. -/
theorem c5_no_stable_branch :
    runPy (finish_release minor_world)
      = ([Event.acquire "/wd/lock/qiskit-terra",
          Event.release "/wd/lock/qiskit-terra"], some PyError.typeError) ∧
    Event.create_branch "stable/1.2" "1.2.0" true ∉
      (runPy (finish_release minor_world)).1 := by
  refine ⟨rfl, by decide⟩

/-- C6: the claim states that in every run the repository lock guards steps
1-4 and is released, on success or exception, before the meta-repository
lock is acquired to guard the meta bump and the final checkout.  In the
embedded run of a patch release the repository lock is indeed acquired first
and released by the scoped exit after the TypeError raised at the log-range
comparison, but the exception means the meta lock is never acquired and the
meta phase never runs. -/
theorem c6_meta_lock_never_acquired :
    runPy (finish_release patch_world)
      = ([Event.acquire "/wd/lock/qiskit-terra",
          Event.reno_report "1.2.1",
          Event.release "/wd/lock/qiskit-terra"], some PyError.typeError) ∧
    Event.acquire "/wd/lock/qiskit-metapackage" ∉
      (runPy (finish_release patch_world)).1 := by
  refine ⟨rfl, by decide⟩

/-- C7 counterexample: the claim states that on tool invocation failure the
release-notes runner logs and returns an empty result instead of raising.
When invoking the tool itself fails (an OSError such as FileNotFoundError,
for example because reno is not installed), the `except` clause, which names
only subprocess.CalledProcessError, does not catch it and the runner
raises. -/
theorem c7_run_reno_counterexample :
    run_reno RenoResult.os_error = Except.error PyError.fileNotFoundError := rfl

/-- C7 amended: for every local path and version, the release-notes runner
returns the tool output on success, and on a non-zero tool exit it logs the
failure and returns None instead of raising; a failure to invoke the tool at
all (an OSError) is not caught and propagates to the caller. -/
theorem c7_run_reno_amended :
    (∀ out, run_reno (RenoResult.success out) = Except.ok (some out)) ∧
    (∀ code, run_reno (RenoResult.called_process_error code) = Except.ok none) ∧
    run_reno RenoResult.os_error = Except.error PyError.fileNotFoundError :=
  ⟨fun _ => rfl, fun _ => rfl, rfl⟩

/-- C8: the claim states that changelog generation fails with
MalformedLogEntry exactly when some log line lacks a parenthesized
change-request token.  The code has no MalformedLogEntry: on a well-formed
log line whose pull request carries a configured label, generation still
fails, with AttributeError, because rendering calls `.append` on the
changelog string; and on a line without the token it raises a bare
TypeError from subscripting the failed regex match. -/
theorem c8_changelog_always_crashes :
    generate_changelog ["abc1234 Fix the bug (#123)"]
        (fun n => if n == 123 then ["bug"] else []) [("bug", "Bug Fixes")]
      = Except.error PyError.attributeError ∧
    generate_changelog ["abc1234 malformed line"]
        (fun n => if n == 123 then ["bug"] else []) [("bug", "Bug Fixes")]
      = Except.error PyError.typeError := by
  refine ⟨rfl, rfl⟩

/-- C9: when the retrieved git log for the computed range is empty,
`_generate_changelog` returns None and `create_github_release` still
creates the hosted release, named "repo version", with the absent changelog
as its body, for every repository name, version, label map and category
map. -/
theorem c9_empty_log_release (labels_of : Int → List String)
    (categories : List (String × String))
    (repo_name version_number log_string : String) :
    runPy (create_github_release [] labels_of categories repo_name
        version_number log_string)
      = ([Event.create_release version_number
          (repo_name ++ " " ++ version_number) none], none) := rfl

/-- C10: the claim states that `bump_meta` always checks out the fixed
branch name "bump_meta" before editing, in both the proposal-found and the
no-proposal paths, never consulting the head branch of a matched proposal.
On a run where an open proposal titled "Bump Meta" exists with head
"some-feature-branch", `bump_meta` raises TypeError while computing the
next meta version, so no checkout (and no edit) ever occurs: the trace is
empty. -/
theorem c10_no_checkout :
    runPy (bump_meta "1.2.1" "0.6.0" "Qiskit/qiskit-aer" "/tmp/qiskit-aer"
        [Pull.mk "Bump Meta" "some-feature-branch"] ["qiskit-aer==1.2.0\n"])
      = ([], some PyError.typeError) ∧
    Event.checkout_ref "bump_meta" ∉
      (runPy (bump_meta "1.2.1" "0.6.0" "Qiskit/qiskit-aer" "/tmp/qiskit-aer"
        [Pull.mk "Bump Meta" "some-feature-branch"] ["qiskit-aer==1.2.0\n"])).1 := by
  refine ⟨rfl, by decide⟩
